import Mathlib

/-!
Verification of the `@hsuite/smart-config` network-configuration resolver
(`src/smart-config.service.ts`), shallowly embedded in Lean.

The service reads a statically supplied options object and, for each of the
three resource kinds (nodes, utilities, fees), either serves a table from an
embedded custom-network configuration or falls back to a remote registry over
HTTP.  JavaScript semantics are made explicit:

* optional / possibly-`undefined` values are `Option`;
* a thrown `TypeError` (property access on `undefined`) or a rejected promise
  is an `Except.error` carrying a `JsError`;
* the HTTP collaborator is a record of functions from URL to decoded body;
* every accessor also returns the list of GET URLs it issued, in order, so
  that "no request is issued" and "a single request is issued" are statable.
-/

namespace SmartConfig

/-- Runtime errors observable from the service: a plain `Error` with a
message (`reject(new Error('Base URL not set'))`), or a `TypeError` from
reading a property of `undefined`, tagged with the property name read. -/
inductive JsError : Type where
  | jsMessage (message : String) : JsError
  | typeError (prop : String) : JsError
deriving DecidableEq, Repr

/-- Opaque node descriptor (`ISmartNetwork.INetwork.IEntity`); its fields are
not interpreted by this component. -/
structure NetworkEntity where
  payload : String
deriving DecidableEq, Repr

/-- Opaque utility-service descriptor (`ISmartNetwork.INetwork.IUtility`). -/
structure NetworkUtility where
  payload : String
deriving DecidableEq, Repr

/-- Opaque fee-schedule descriptor (`ISmartNetwork.INetwork.IFees.IEntity`). -/
structure FeesEntity where
  payload : String
deriving DecidableEq, Repr

/-- The resolved network configuration: the triple returned by
`getNetworkConfig` when a custom table applies. -/
structure NetworkConfig where
  nodes : List NetworkEntity
  utilities : List NetworkUtility
  fees : FeesEntity
deriving DecidableEq, Repr

/-- The `customNetwork` table of the options object, keyed by
`testnet` / `local` / `mainnet`.  Each entry may itself be absent
(`undefined` in JavaScript), hence `Option`. -/
structure CustomNetwork where
  testnet : Option NetworkConfig
  «local» : Option NetworkConfig
  mainnet : Option NetworkConfig
deriving DecidableEq, Repr

/-- The statically supplied options object
(`ISmartNetwork.INetwork.IConfig.IOptions`).  The three discriminators are
strings, as in the TypeScript source, where the `switch` statements have no
`default` case; `customNetwork` and `smartRegistryUrl` are optional. -/
structure Options where
  environment : String
  network : String
  client_environment : String
  customNetwork : Option CustomNetwork
  smartRegistryUrl : Option String
deriving DecidableEq, Repr

/-- Mirror-node configuration record (`IHashgraph.IMirrorNode`). -/
structure MirrorNodeConfig where
  url : Option String
  apiKey : Option String
  grpc : Option String
deriving DecidableEq, Repr

/-- The slice of the NestJS `ConfigService` key-value store that the claims
touch: the `mirrorNode` key and the `clusterConfig.threshold` key, each
possibly absent. -/
structure ConfigStore where
  mirrorNode : Option MirrorNodeConfig
  clusterThreshold : Option Nat
deriving DecidableEq, Repr

/-- The HTTP collaborator: one decoded-body-returning GET per endpoint type.
A transport or status failure is an `Except.error`. -/
structure HttpService where
  getNodesAt : String → Except JsError (List NetworkEntity)
  getUtilitiesAt : String → Except JsError (List NetworkUtility)
  getFeesAt : String → Except JsError FeesEntity

/-- Embedding of the private `getNetworkConfig` method.

```ts
let networkConfig = null;
switch(this.smartConfigOptions.environment) {
  case 'testnet':
    switch(this.smartConfigOptions.network) {
      case 'public':  networkConfig = null; break;
      case 'private':
        networkConfig = this.smartConfigOptions.client_environment == 'testnet' ?
          this.smartConfigOptions.customNetwork.testnet :
          this.smartConfigOptions.customNetwork.local;
        break;
    }
    break;
  case 'mainnet':
    networkConfig = this.smartConfigOptions.network == 'private' ?
      this.smartConfigOptions.customNetwork.mainnet : null;
    break;
}
return networkConfig;
```

When `customNetwork` is `undefined`, the property read in the taken ternary
branch throws a `TypeError`; that is the `Except.error` case.  A present
`customNetwork` whose selected entry is `undefined` yields a falsy
`networkConfig`, i.e. `Except.ok none`, indistinguishable from `null` at the
call sites. -/
def getNetworkConfig (o : Options) : Except JsError (Option NetworkConfig) :=
  match o.environment with
  | "testnet" =>
    match o.network with
    | "public" => Except.ok none
    | "private" =>
      match o.customNetwork with
      | none =>
        Except.error (JsError.typeError
          (if o.client_environment = "testnet" then "testnet" else "local"))
      | some cn =>
        Except.ok (if o.client_environment = "testnet" then cn.testnet else cn.«local»)
    | _ => Except.ok none
  | "mainnet" =>
    if o.network = "private" then
      match o.customNetwork with
      | none => Except.error (JsError.typeError "mainnet")
      | some cn => Except.ok cn.mainnet
    else Except.ok none
  | _ => Except.ok none

/-- Embedding of `getNodes`.  The second component of the result is the list
of GET URLs issued by this call, in order.  The guard on the registry URL is
`!lodash.isUndefined(url) && url !== 'local'`; when the guard fails the
promise rejects with `new Error('Base URL not set')`.  A `TypeError` thrown
by `getNetworkConfig` is caught by the surrounding `try` and rejects the
promise; an HTTP failure likewise propagates. -/
def getNodes (o : Options) (http : HttpService) :
    Except JsError (List NetworkEntity) × List String :=
  match getNetworkConfig o with
  | Except.error e => (Except.error e, [])
  | Except.ok (some networkConfig) => (Except.ok networkConfig.nodes, [])
  | Except.ok none =>
    match o.smartRegistryUrl with
    | some url =>
      if url ≠ "local" then
        (http.getNodesAt (url ++ "/network/nodes"), [url ++ "/network/nodes"])
      else (Except.error (JsError.jsMessage "Base URL not set"), [])
    | none => (Except.error (JsError.jsMessage "Base URL not set"), [])

/-- Embedding of `getUtilities`; same structure as `getNodes` with the
`/network/utilities` endpoint. -/
def getUtilities (o : Options) (http : HttpService) :
    Except JsError (List NetworkUtility) × List String :=
  match getNetworkConfig o with
  | Except.error e => (Except.error e, [])
  | Except.ok (some networkConfig) => (Except.ok networkConfig.utilities, [])
  | Except.ok none =>
    match o.smartRegistryUrl with
    | some url =>
      if url ≠ "local" then
        (http.getUtilitiesAt (url ++ "/network/utilities"), [url ++ "/network/utilities"])
      else (Except.error (JsError.jsMessage "Base URL not set"), [])
    | none => (Except.error (JsError.jsMessage "Base URL not set"), [])

/-- Embedding of `getFees`; same structure as `getNodes` with the
`/network/fees` endpoint. -/
def getFees (o : Options) (http : HttpService) :
    Except JsError FeesEntity × List String :=
  match getNetworkConfig o with
  | Except.error e => (Except.error e, [])
  | Except.ok (some networkConfig) => (Except.ok networkConfig.fees, [])
  | Except.ok none =>
    match o.smartRegistryUrl with
    | some url =>
      if url ≠ "local" then
        (http.getFeesAt (url ++ "/network/fees"), [url ++ "/network/fees"])
      else (Except.error (JsError.jsMessage "Base URL not set"), [])
    | none => (Except.error (JsError.jsMessage "Base URL not set"), [])

/-- Embedding of `getMirrorNode`: `getOrThrow('mirrorNode')` with the failure
caught and replaced by an all-`null` record.  Total by construction. -/
def getMirrorNode (store : ConfigStore) : MirrorNodeConfig :=
  match store.mirrorNode with
  | some mirrorNode => mirrorNode
  | none => { url := none, apiKey := none, grpc := none }

/-- Embedding of `getThreshold`:
`Math.ceil((nodes.length * thresholdValue) / 100)` after reading
`clusterConfig.threshold` (rejecting when absent) and resolving the nodes.
On naturals, `Math.ceil(m / 100)` is `(m + 99) / 100`. -/
def getThreshold (o : Options) (http : HttpService) (store : ConfigStore) :
    Except JsError Nat :=
  match store.clusterThreshold with
  | none => Except.error (JsError.jsMessage "clusterConfig.threshold not set")
  | some thresholdValue =>
    match (getNodes o http).fst with
    | Except.error e => Except.error e
    | Except.ok nodes => Except.ok ((nodes.length * thresholdValue + 99) / 100)

/-!  Sample values used by the witness theorems. -/

/-- A sample custom-network table with three distinct entries. -/
def cnSample : CustomNetwork :=
  { testnet := some ⟨[⟨"tn-node"⟩], [⟨"tn-util"⟩], ⟨"tn-fees"⟩⟩
    «local» := some ⟨[⟨"lo-node"⟩, ⟨"lo-node2"⟩], [⟨"lo-util"⟩], ⟨"lo-fees"⟩⟩
    mainnet := some ⟨[⟨"mn-node"⟩], [⟨"mn-util"⟩], ⟨"mn-fees"⟩⟩ }

/-- A sample HTTP collaborator that answers every URL. -/
def httpSample : HttpService :=
  { getNodesAt := fun u => Except.ok [⟨"remote-node:" ++ u⟩]
    getUtilitiesAt := fun u => Except.ok [⟨"remote-util:" ++ u⟩]
    getFeesAt := fun u => Except.ok ⟨"remote-fees:" ++ u⟩ }

/-- testnet / public options. -/
def optTP : Options :=
  { environment := "testnet", network := "public", client_environment := "local"
    customNetwork := some cnSample, smartRegistryUrl := some "http://reg" }

/-- testnet / private / client testnet options. -/
def optTPrT : Options :=
  { environment := "testnet", network := "private", client_environment := "testnet"
    customNetwork := some cnSample, smartRegistryUrl := none }

/-- testnet / private / client local options. -/
def optTPrL : Options :=
  { environment := "testnet", network := "private", client_environment := "local"
    customNetwork := some cnSample, smartRegistryUrl := none }

/-- testnet / private / client mainnet options. -/
def optTPrM : Options :=
  { environment := "testnet", network := "private", client_environment := "mainnet"
    customNetwork := some cnSample, smartRegistryUrl := none }

/-- mainnet / private options. -/
def optMPr : Options :=
  { environment := "mainnet", network := "private", client_environment := "mainnet"
    customNetwork := some cnSample, smartRegistryUrl := none }

/-- mainnet / public options. -/
def optMP : Options :=
  { environment := "mainnet", network := "public", client_environment := "mainnet"
    customNetwork := some cnSample, smartRegistryUrl := some "http://reg" }

/-- testnet / public options with no registry URL. -/
def optNoUrl : Options :=
  { environment := "testnet", network := "public", client_environment := "local"
    customNetwork := none, smartRegistryUrl := none }

/-- testnet / public options with the literal `local` registry URL. -/
def optLocalUrl : Options :=
  { environment := "testnet", network := "public", client_environment := "local"
    customNetwork := none, smartRegistryUrl := some "local" }

/-- testnet / private options with `customNetwork` entirely absent but a
registry URL set. -/
def optPrivNoCn : Options :=
  { environment := "testnet", network := "private", client_environment := "testnet"
    customNetwork := none, smartRegistryUrl := some "http://reg" }

/-- A custom-network table whose `testnet` entry is absent. -/
def cnNoTestnet : CustomNetwork :=
  { testnet := none
    «local» := some ⟨[⟨"lo-node"⟩], [⟨"lo-util"⟩], ⟨"lo-fees"⟩⟩
    mainnet := some ⟨[⟨"mn-node"⟩], [⟨"mn-util"⟩], ⟨"mn-fees"⟩⟩ }

/-- testnet / private / client testnet options whose selected `testnet`
entry is absent, with a registry URL set. -/
def optHole : Options :=
  { environment := "testnet", network := "private", client_environment := "testnet"
    customNetwork := some cnNoTestnet, smartRegistryUrl := some "http://reg" }

/-- A custom-network table whose `testnet` entry holds ten nodes. -/
def cn10 : CustomNetwork :=
  { testnet := some ⟨List.replicate 10 ⟨"n"⟩, [], ⟨"f"⟩⟩
    «local» := none
    mainnet := none }

/-- testnet / private / client testnet options resolving to ten nodes. -/
def opt10 : Options :=
  { environment := "testnet", network := "private", client_environment := "testnet"
    customNetwork := some cn10, smartRegistryUrl := none }

/-!  Claim theorems. -/

/-- C1: `getNetworkConfig` follows the spec's decision table: under
testnet/public the result is absent regardless of `client_environment`;
under testnet/private/testnet it is the `customNetwork.testnet` entry; under
mainnet/private it is the `customNetwork.mainnet` entry; under
mainnet/public it is absent. -/
theorem getNetworkConfig_decision_table (o : Options) :
    (o.environment = "testnet" → o.network = "public" →
      getNetworkConfig o = Except.ok none) ∧
    (∀ cn, o.customNetwork = some cn → o.environment = "testnet" →
      o.network = "private" → o.client_environment = "testnet" →
      getNetworkConfig o = Except.ok cn.testnet) ∧
    (∀ cn, o.customNetwork = some cn → o.environment = "mainnet" →
      o.network = "private" → getNetworkConfig o = Except.ok cn.mainnet) ∧
    (o.environment = "mainnet" → o.network = "public" →
      getNetworkConfig o = Except.ok none) := by
  obtain ⟨env, net, ce, cn?, url?⟩ := o
  refine ⟨?_, ?_, ?_, ?_⟩
  · rintro rfl rfl; rfl
  · rintro cn rfl rfl rfl rfl; simp [getNetworkConfig]
  · rintro cn rfl rfl rfl; simp [getNetworkConfig]
  · rintro rfl rfl; simp [getNetworkConfig]

/-- C1 witness: the four rows of the decision table evaluated at concrete
options values. -/
theorem getNetworkConfig_decision_table_witness :
    getNetworkConfig optTP = Except.ok none ∧
    getNetworkConfig optTPrT = Except.ok cnSample.testnet ∧
    getNetworkConfig optMPr = Except.ok cnSample.mainnet ∧
    getNetworkConfig optMP = Except.ok none :=
  ⟨(getNetworkConfig_decision_table optTP).1 rfl rfl,
   (getNetworkConfig_decision_table optTPrT).2.1 cnSample rfl rfl rfl rfl,
   (getNetworkConfig_decision_table optMPr).2.2.1 cnSample rfl rfl rfl,
   (getNetworkConfig_decision_table optMP).2.2.2 rfl rfl⟩

/-- C2: under testnet/private, a `client_environment` of `local` or
`mainnet` selects the same `customNetwork.local` table. -/
theorem getNetworkConfig_local_collapse (o : Options) (cn : CustomNetwork)
    (hcn : o.customNetwork = some cn)
    (henv : o.environment = "testnet") (hnet : o.network = "private")
    (hce : o.client_environment = "local" ∨ o.client_environment = "mainnet") :
    getNetworkConfig o = Except.ok cn.«local» := by
  obtain ⟨env, net, ce, cn?, url?⟩ := o
  simp only at hcn henv hnet hce
  subst hcn henv hnet
  rcases hce with rfl | rfl <;> simp [getNetworkConfig]

/-- C2 witness: both collapsing client environments evaluated at concrete
options values. -/
theorem getNetworkConfig_local_collapse_witness :
    getNetworkConfig optTPrL = Except.ok cnSample.«local» ∧
    getNetworkConfig optTPrM = Except.ok cnSample.«local» :=
  ⟨getNetworkConfig_local_collapse optTPrL cnSample rfl rfl rfl (Or.inl rfl),
   getNetworkConfig_local_collapse optTPrM cnSample rfl rfl rfl (Or.inr rfl)⟩

/-- C3: when the resolved network configuration is absent and the registry
URL is unset or the literal `local`, each accessor rejects with an error
whose message is `Base URL not set`, and the request log is empty (no HTTP
request is issued). -/
theorem accessors_reject_without_base_url (o : Options) (http : HttpService)
    (hnc : getNetworkConfig o = Except.ok none)
    (hurl : o.smartRegistryUrl = none ∨ o.smartRegistryUrl = some "local") :
    getNodes o http = (Except.error (JsError.jsMessage "Base URL not set"), []) ∧
    getUtilities o http = (Except.error (JsError.jsMessage "Base URL not set"), []) ∧
    getFees o http = (Except.error (JsError.jsMessage "Base URL not set"), []) := by
  rcases hurl with hurl | hurl <;>
    simp [getNodes, getUtilities, getFees, hnc, hurl]

/-- C3 witness: the three accessors evaluated at concrete options with no
registry URL and with the literal `local` registry URL. -/
theorem accessors_reject_without_base_url_witness :
    getNetworkConfig optNoUrl = Except.ok none ∧
    getNodes optNoUrl httpSample =
      (Except.error (JsError.jsMessage "Base URL not set"), []) ∧
    getNetworkConfig optLocalUrl = Except.ok none ∧
    getFees optLocalUrl httpSample =
      (Except.error (JsError.jsMessage "Base URL not set"), []) :=
  ⟨rfl,
   (accessors_reject_without_base_url optNoUrl httpSample rfl (Or.inl rfl)).1,
   rfl,
   (accessors_reject_without_base_url optLocalUrl httpSample rfl
     (Or.inr rfl)).2.2⟩

/-- C4: when the resolved network configuration is absent and the registry
URL is set and not `local`, each accessor issues exactly one GET to its
endpoint under the URL and returns the collaborator's decoded response
unchanged; a collaborator failure propagates verbatim (the first component
of the result IS the collaborator's output). -/
theorem accessors_remote_fetch (o : Options) (http : HttpService) (url : String)
    (hnc : getNetworkConfig o = Except.ok none)
    (hurl : o.smartRegistryUrl = some url) (hne : url ≠ "local") :
    getNodes o http =
      (http.getNodesAt (url ++ "/network/nodes"), [url ++ "/network/nodes"]) ∧
    getUtilities o http =
      (http.getUtilitiesAt (url ++ "/network/utilities"),
        [url ++ "/network/utilities"]) ∧
    getFees o http =
      (http.getFeesAt (url ++ "/network/fees"), [url ++ "/network/fees"]) := by
  simp [getNodes, getUtilities, getFees, hnc, hurl, hne]

/-- C4 witness: a concrete testnet/public options value with registry URL
`http://reg` routes each accessor to the collaborator's answer for the
corresponding endpoint. -/
theorem accessors_remote_fetch_witness :
    getNetworkConfig optTP = Except.ok none ∧
    ("http://reg" : String) ≠ "local" ∧
    getNodes optTP httpSample =
      (Except.ok [⟨"remote-node:http://reg/network/nodes"⟩],
        ["http://reg/network/nodes"]) ∧
    getUtilities optTP httpSample =
      (Except.ok [⟨"remote-util:http://reg/network/utilities"⟩],
        ["http://reg/network/utilities"]) :=
  ⟨rfl, by decide,
   (accessors_remote_fetch optTP httpSample "http://reg" rfl rfl
     (by decide)).1,
   (accessors_remote_fetch optTP httpSample "http://reg" rfl rfl
     (by decide)).2.1⟩

/-- C6: `getMirrorNode` never fails: an absent `mirrorNode` key yields the
all-`null` record, and a present key yields the stored value unchanged. -/
theorem getMirrorNode_total (store : ConfigStore) :
    (store.mirrorNode = none →
      getMirrorNode store = { url := none, apiKey := none, grpc := none }) ∧
    (∀ m, store.mirrorNode = some m → getMirrorNode store = m) := by
  constructor
  · intro h; simp [getMirrorNode, h]
  · intro m h; simp [getMirrorNode, h]

/-- C6 witness: both branches of `getMirrorNode` evaluated at concrete
stores. -/
theorem getMirrorNode_total_witness :
    getMirrorNode { mirrorNode := none, clusterThreshold := none } =
      { url := none, apiKey := none, grpc := none } ∧
    getMirrorNode
      { mirrorNode := some ⟨some "u", some "k", some "g"⟩
        clusterThreshold := none } = ⟨some "u", some "k", some "g"⟩ :=
  ⟨(getMirrorNode_total { mirrorNode := none, clusterThreshold := none }).1 rfl,
   (getMirrorNode_total
     { mirrorNode := some ⟨some "u", some "k", some "g"⟩
       clusterThreshold := none }).2 ⟨some "u", some "k", some "g"⟩ rfl⟩

/-- C9: with `network = private` under either environment and
`customNetwork` absent, `getNetworkConfig` throws a `TypeError` dereferencing
the missing table, so all three accessors reject with that access error and
issue no HTTP request — even when `smartRegistryUrl` is set (no hypothesis
constrains it). -/
theorem private_missing_custom_network (o : Options) (http : HttpService)
    (hnet : o.network = "private")
    (henv : o.environment = "testnet" ∨ o.environment = "mainnet")
    (hcn : o.customNetwork = none) :
    ∃ p, getNetworkConfig o = Except.error (JsError.typeError p) ∧
      getNodes o http = (Except.error (JsError.typeError p), []) ∧
      getUtilities o http = (Except.error (JsError.typeError p), []) ∧
      getFees o http = (Except.error (JsError.typeError p), []) := by
  have hres : ∃ p, getNetworkConfig o = Except.error (JsError.typeError p) := by
    rcases henv with henv | henv
    · exact ⟨if o.client_environment = "testnet" then "testnet" else "local",
        by simp [getNetworkConfig, henv, hnet, hcn]⟩
    · exact ⟨"mainnet", by simp [getNetworkConfig, henv, hnet, hcn]⟩
  obtain ⟨p, hp⟩ := hres
  exact ⟨p, hp, by simp [getNodes, hp], by simp [getUtilities, hp],
    by simp [getFees, hp]⟩

/-- C9 witness: testnet/private/testnet with no `customNetwork` but a
registry URL set rejects with the `TypeError` on every accessor and issues
no request. -/
theorem private_missing_custom_network_witness :
    optPrivNoCn.smartRegistryUrl = some "http://reg" ∧
    ∃ p, getNetworkConfig optPrivNoCn = Except.error (JsError.typeError p) ∧
      getNodes optPrivNoCn httpSample =
        (Except.error (JsError.typeError p), []) ∧
      getUtilities optPrivNoCn httpSample =
        (Except.error (JsError.typeError p), []) ∧
      getFees optPrivNoCn httpSample =
        (Except.error (JsError.typeError p), []) :=
  ⟨rfl, private_missing_custom_network optPrivNoCn httpSample rfl
    (Or.inl rfl) rfl⟩

/-- C10: the presence test is applied to the resolved table entry, not to
the branch taken: when testnet/private/testnet selects `customNetwork.testnet`
but that entry is itself absent, `getNetworkConfig` resolves to absent and
the accessors fall through to the remote-registry path (or the
`Base URL not set` failure), never returning the absent entry. -/
theorem absent_entry_falls_through (o : Options) (http : HttpService)
    (cn : CustomNetwork) (hcn : o.customNetwork = some cn)
    (henv : o.environment = "testnet") (hnet : o.network = "private")
    (hce : o.client_environment = "testnet") (hentry : cn.testnet = none) :
    getNetworkConfig o = Except.ok none ∧
    (∀ url, o.smartRegistryUrl = some url → url ≠ "local" →
      getNodes o http =
        (http.getNodesAt (url ++ "/network/nodes"), [url ++ "/network/nodes"]) ∧
      getUtilities o http =
        (http.getUtilitiesAt (url ++ "/network/utilities"),
          [url ++ "/network/utilities"]) ∧
      getFees o http =
        (http.getFeesAt (url ++ "/network/fees"), [url ++ "/network/fees"])) ∧
    ((o.smartRegistryUrl = none ∨ o.smartRegistryUrl = some "local") →
      getNodes o http =
        (Except.error (JsError.jsMessage "Base URL not set"), []) ∧
      getUtilities o http =
        (Except.error (JsError.jsMessage "Base URL not set"), []) ∧
      getFees o http =
        (Except.error (JsError.jsMessage "Base URL not set"), [])) := by
  have hres : getNetworkConfig o = Except.ok none := by
    simp [getNetworkConfig, henv, hnet, hce, hcn, hentry]
  refine ⟨hres, ?_, ?_⟩
  · intro url hurl hne
    refine ⟨?_, ?_, ?_⟩ <;>
      simp [getNodes, getUtilities, getFees, hres, hurl, hne]
  · intro hurl
    rcases hurl with hurl | hurl <;>
      (refine ⟨?_, ?_, ?_⟩ <;>
        simp [getNodes, getUtilities, getFees, hres, hurl])

/-- C10 witness: concrete options whose `customNetwork.testnet` entry is
absent fall through to the remote registry at `http://reg`. -/
theorem absent_entry_falls_through_witness :
    cnNoTestnet.testnet = none ∧
    getNetworkConfig optHole = Except.ok none ∧
    getNodes optHole httpSample =
      (Except.ok [⟨"remote-node:http://reg/network/nodes"⟩],
        ["http://reg/network/nodes"]) :=
  ⟨rfl,
   (absent_entry_falls_through optHole httpSample cnNoTestnet rfl rfl rfl
     rfl rfl).1,
   ((absent_entry_falls_through optHole httpSample cnNoTestnet rfl rfl rfl
     rfl rfl).2.1 "http://reg" rfl (by decide)).1⟩

/-- C7: every call to `getNodes`, `getUtilities` or `getFees` draws its
result from exactly one source: either the resolved local configuration
(issuing no request, returning the table entries verbatim), or a single
remote fetch whose response is returned verbatim (the local tables unused),
or it fails having issued no successful mixture — local and remote data are
never merged. -/
theorem accessors_single_source (o : Options) (http : HttpService) :
    (∃ nc, getNetworkConfig o = Except.ok (some nc) ∧
      getNodes o http = (Except.ok nc.nodes, []) ∧
      getUtilities o http = (Except.ok nc.utilities, []) ∧
      getFees o http = (Except.ok nc.fees, [])) ∨
    (∃ u, getNetworkConfig o = Except.ok none ∧
      getNodes o http =
        (http.getNodesAt (u ++ "/network/nodes"), [u ++ "/network/nodes"]) ∧
      getUtilities o http =
        (http.getUtilitiesAt (u ++ "/network/utilities"),
          [u ++ "/network/utilities"]) ∧
      getFees o http =
        (http.getFeesAt (u ++ "/network/fees"), [u ++ "/network/fees"])) ∨
    (∃ e, getNodes o http = (Except.error e, []) ∧
      getUtilities o http = (Except.error e, []) ∧
      getFees o http = (Except.error e, [])) := by
  rcases h : getNetworkConfig o with e | nc?
  · exact Or.inr (Or.inr ⟨e, by simp [getNodes, h], by simp [getUtilities, h],
      by simp [getFees, h]⟩)
  · rcases nc? with _ | nc
    · rcases hu : o.smartRegistryUrl with _ | url
      · exact Or.inr (Or.inr ⟨JsError.jsMessage "Base URL not set",
          by simp [getNodes, h, hu], by simp [getUtilities, h, hu],
          by simp [getFees, h, hu]⟩)
      · by_cases hl : url = "local"
        · subst hl
          exact Or.inr (Or.inr ⟨JsError.jsMessage "Base URL not set",
            by simp [getNodes, h, hu], by simp [getUtilities, h, hu],
            by simp [getFees, h, hu]⟩)
        · exact Or.inr (Or.inl ⟨url, rfl, by simp [getNodes, h, hu, hl],
            by simp [getUtilities, h, hu, hl], by simp [getFees, h, hu, hl]⟩)
    · exact Or.inl ⟨nc, rfl, by simp [getNodes, h], by simp [getUtilities, h],
        by simp [getFees, h]⟩

/-- C8: every accessor is deterministic in its inputs: two calls with the
same options, the same configuration store and the same HTTP collaborator
return identical results.  In the embedding the accessors are pure functions
of exactly these inputs — the source mutates neither the options object nor
any other state — so equal inputs give equal outputs. -/
theorem accessors_deterministic (o₁ o₂ : Options) (http : HttpService)
    (store : ConfigStore) (h : o₁ = o₂) :
    getNetworkConfig o₁ = getNetworkConfig o₂ ∧
    getNodes o₁ http = getNodes o₂ http ∧
    getUtilities o₁ http = getUtilities o₂ http ∧
    getFees o₁ http = getFees o₂ http ∧
    getThreshold o₁ http store = getThreshold o₂ http store ∧
    getMirrorNode store = getMirrorNode store := by
  subst h
  exact ⟨rfl, rfl, rfl, rfl, rfl, rfl⟩

/-- C8 witness: the determinism theorem applied at a concrete options value,
collaborator and store. -/
theorem accessors_deterministic_witness :
    getNodes optTPrT httpSample = getNodes optTPrT httpSample ∧
    getFees optTPrT httpSample = getFees optTPrT httpSample :=
  ⟨(accessors_deterministic optTPrT optTPrT httpSample
      { mirrorNode := none, clusterThreshold := none } rfl).2.1,
   (accessors_deterministic optTPrT optTPrT httpSample
      { mirrorNode := none, clusterThreshold := none } rfl).2.2.2.1⟩

/-- Ceiling division by 100 on naturals agrees with the rational ceiling:
`⌈m / 100⌉ = (m + 99) / 100`. -/
lemma ceil_div_100 (m : Nat) : ⌈(m : ℚ) / 100⌉₊ = (m + 99) / 100 := by
  have h100 : (0 : ℚ) < 100 := by norm_num
  apply le_antisymm
  · rw [Nat.ceil_le, div_le_iff₀ h100]
    have hub : m ≤ (m + 99) / 100 * 100 := by omega
    exact_mod_cast hub
  · rcases Nat.eq_zero_or_pos ((m + 99) / 100) with h | h
    · rw [h]; exact Nat.zero_le _
    · have hlt : ((m + 99) / 100 - 1) * 100 < m := by omega
      have hq : (((m + 99) / 100 - 1 : Nat) : ℚ) < (m : ℚ) / 100 := by
        rw [lt_div_iff₀ h100]; exact_mod_cast hlt
      have hceil := Nat.lt_ceil.mpr hq
      omega

/-- C5: `getThreshold` returns the ceiling of `nodeCount * percentage / 100`
for the node count delivered by `getNodes` and the percentage read from
`clusterConfig.threshold`; in particular 10 nodes at 67% give 7, zero nodes
give 0 at any percentage, and 4 nodes at 100% give 4. -/
theorem getThreshold_ceil (o : Options) (http : HttpService)
    (store : ConfigStore) (p : Nat) (nodes : List NetworkEntity)
    (hp : store.clusterThreshold = some p)
    (hn : (getNodes o http).fst = Except.ok nodes) :
    getThreshold o http store =
      Except.ok ⌈((nodes.length * p : Nat) : ℚ) / 100⌉₊ ∧
    (nodes.length = 10 → p = 67 → getThreshold o http store = Except.ok 7) ∧
    (nodes.length = 0 → getThreshold o http store = Except.ok 0) ∧
    (nodes.length = 4 → p = 100 → getThreshold o http store = Except.ok 4) := by
  have hmain : getThreshold o http store =
      Except.ok ((nodes.length * p + 99) / 100) := by
    simp [getThreshold, hp, hn]
  refine ⟨?_, ?_, ?_, ?_⟩
  · rw [hmain, ceil_div_100]
  · intro h10 h67; rw [hmain, h10, h67]
  · intro h0; rw [hmain, h0]; norm_num
  · intro h4 h100; rw [hmain, h4, h100]

/-- C5 witness: ten locally configured nodes at a 67% threshold give a
consensus threshold of 7. -/
theorem getThreshold_ceil_witness :
    ({ mirrorNode := none, clusterThreshold := some 67 } :
        ConfigStore).clusterThreshold = some 67 ∧
    (getNodes opt10 httpSample).fst =
      Except.ok (List.replicate 10 ⟨"n"⟩) ∧
    getThreshold opt10 httpSample
      { mirrorNode := none, clusterThreshold := some 67 } = Except.ok 7 :=
  ⟨rfl, rfl,
   (getThreshold_ceil opt10 httpSample
      { mirrorNode := none, clusterThreshold := some 67 } 67
      (List.replicate 10 ⟨"n"⟩) rfl rfl).2.1 rfl rfl⟩

end SmartConfig
